import Mathlib

/-!
Shallow embedding of the storage substrate of the coca crate
(src/storage.rs and src/option_group.rs; the arena module declared in
src/lib.rs is not part of the visible sources and is modelled from the
specification where a claim needs it).

Machine integers are modelled as Nat with explicit wrap-around where the
code can overflow, assuming a 64-bit target (usize is 64 bits wide);
panics (including debug assertions and the todo macro) are modelled as
Except.error values.
-/

namespace Coca

/-- The largest value of the platform size type, on a 64-bit target. -/
def usizeMax : Nat := 2 ^ 64 - 1

/-- The largest value of the platform signed size type, on a 64-bit target. -/
def isizeMax : Nat := 2 ^ 63 - 1

/-! ## Capacity implementations (src/storage.rs, lines 17-105)

Each implementation of the Capacity trait provided by the crate is a
record of: its MAX_REPRESENTABLE constant, the wrapping cast performed by
the expression i as Repr inside from_usize, the cast performed by
as_usize, and the conditions checked by the debug assertions guarding
each of the two methods (the TryInto / TryFrom round-trip checks). -/

structure CapacityImpl where
  maxRepresentable : Nat
  castFromUsize : Nat → Nat
  castToUsize : Nat → Nat
  fromUsizeAssertOk : Nat → Bool
  asUsizeAssertOk : Nat → Bool

/-- Rust from_usize: debug_assert that the conversion is lossless (a panic
only when debug assertions are compiled in), then the plain cast i as Repr,
which wraps silently. -/
def CapacityImpl.from_usize (c : CapacityImpl) (debugAssertions : Bool) (i : Nat) :
    Except String Nat :=
  if debugAssertions && not (c.fromUsizeAssertOk i) then
    Except.error "assertion failed"
  else
    Except.ok (c.castFromUsize i)

/-- Rust as_usize: debug_assert that usize can represent the value (a panic
only when debug assertions are compiled in), then the cast as usize. -/
def CapacityImpl.as_usize (c : CapacityImpl) (debugAssertions : Bool) (v : Nat) :
    Except String Nat :=
  if debugAssertions && not (c.asUsizeAssertOk v) then
    Except.error "assertion failed"
  else
    Except.ok (c.castToUsize v)

/-- impl Capacity for u8 (src/storage.rs lines 36-48). -/
def capacityU8 : CapacityImpl where
  maxRepresentable := 0xFF
  castFromUsize := fun i => i % 2 ^ 8
  castToUsize := fun v => v
  fromUsizeAssertOk := fun i => decide (i ≤ 0xFF)
  asUsizeAssertOk := fun _ => true

/-- impl Capacity for u16 (src/storage.rs lines 50-62). -/
def capacityU16 : CapacityImpl where
  maxRepresentable := 0xFFFF
  castFromUsize := fun i => i % 2 ^ 16
  castToUsize := fun v => v
  fromUsizeAssertOk := fun i => decide (i ≤ 0xFFFF)
  asUsizeAssertOk := fun _ => true

/-- impl Capacity for u32 (src/storage.rs lines 64-77); on a 64-bit target
the widening cast to usize is exact and the TryFrom check always passes. -/
def capacityU32 : CapacityImpl where
  maxRepresentable := 0xFFFFFFFF
  castFromUsize := fun i => i % 2 ^ 32
  castToUsize := fun v => v
  fromUsizeAssertOk := fun i => decide (i ≤ 0xFFFFFFFF)
  asUsizeAssertOk := fun v => decide (v ≤ usizeMax)

/-- impl Capacity for u64 (src/storage.rs lines 79-92); MAX_REPRESENTABLE
is usize::max_value(), and on a 64-bit target the casts wrap at 2 ^ 64. -/
def capacityU64 : CapacityImpl where
  maxRepresentable := usizeMax
  castFromUsize := fun i => i % 2 ^ 64
  castToUsize := fun v => v % 2 ^ 64
  fromUsizeAssertOk := fun i => decide (i ≤ usizeMax)
  asUsizeAssertOk := fun v => decide (v ≤ usizeMax)

/-- impl Capacity for usize (src/storage.rs lines 94-105); both conversions
are the identity and carry no debug assertion. -/
def capacityUsize : CapacityImpl where
  maxRepresentable := usizeMax
  castFromUsize := fun i => i
  castToUsize := fun v => v
  fromUsizeAssertOk := fun _ => true
  asUsizeAssertOk := fun _ => true

/-- The five Capacity implementations provided by the crate. -/
inductive CapKind where
  | u8
  | u16
  | u32
  | u64
  | usize

/-- Dispatch from the enumeration of provided implementations. -/
def capImpl : CapKind → CapacityImpl
  | .u8 => capacityU8
  | .u16 => capacityU16
  | .u32 => capacityU32
  | .u64 => capacityU64
  | .usize => capacityUsize

/-- src/storage.rs lines 26-34: unconditional panic whose message names the
offending index type. -/
def buffer_too_large_for_index_type (typeName : String) : Except String Unit :=
  Except.error ("provided storage block cannot be fully indexed by type " ++ typeName)

/-! ## Layout specification (src/storage.rs, lines 164-177) -/

/-- The error type of the platform layout arithmetic. -/
inductive LayoutError where
  | mk
deriving DecidableEq, Repr

/-- A size / alignment pair, as in core::alloc::Layout. -/
structure Layout where
  size : Nat
  align : Nat
deriving DecidableEq, Repr

/-- The size and alignment of a Rust element type. -/
structure RustType where
  size : Nat
  align : Nat
deriving DecidableEq, Repr

/-- Model of core::alloc::Layout::array, which layout_with_capacity
delegates to: errors when element_size is nonzero and
n > (isize::MAX - (align - 1)) / element_size, and otherwise produces the
layout with size element_size * n and the element alignment. -/
def Layout.array (elementSize align n : Nat) : Except LayoutError Layout :=
  if elementSize ≠ 0 ∧ (isizeMax - (align - 1)) / elementSize < n then
    Except.error LayoutError.mk
  else
    Except.ok { size := elementSize * n, align := align }

/-- impl LayoutSpec for ArrayLike of T (src/storage.rs lines 173-177):
Layout::array::<T>(items). -/
def ArrayLike.layout_with_capacity (T : RustType) (items : Nat) : Except LayoutError Layout :=
  Layout.array T.size T.align items

/-! ## The Storage trait and its implementers (src/storage.rs, lines 180-332)

The trait methods take a shared or exclusive reference to the storage
value; in the embedding each call is explicit state passing: it returns
the requested value together with the (possibly updated) storage value.
A backend is a record of the three trait methods over its state type. -/

structure StorageOps (σ : Type) where
  get_ptr : σ → Nat × σ
  get_mut_ptr : σ → Nat × σ
  capacity : σ → Nat × σ

/-- The referent of a borrowed slice of possibly uninitialized elements,
as used by the backend for a mutable reference to a MaybeUninit slice:
the address of its first element, and one cell per element (none models
an uninitialized cell). -/
structure SliceStorage (α : Type) where
  base : Nat
  cells : List (Option α)

/-- impl Storage (ArrayLike T) for a mutable MaybeUninit slice
(src/storage.rs lines 224-237): as_ptr / as_mut_ptr / len. -/
def sliceStorageOps (α : Type) : StorageOps (SliceStorage α) where
  get_ptr := fun s => (s.base, s)
  get_mut_ptr := fun s => (s.base, s)
  capacity := fun s => (s.cells.length, s)

/-- impl Storage (ArrayLike T) for HeapStorage, a boxed MaybeUninit slice
(src/storage.rs lines 289-299): as_ptr / as_mut_ptr / len, identical in
shape to the borrowed-slice backend. -/
def heapStorageOps (α : Type) : StorageOps (SliceStorage α) where
  get_ptr := fun s => (s.base, s)
  get_mut_ptr := fun s => (s.base, s)
  capacity := fun s => (s.cells.length, s)

/-- impl Storage (ArrayLike T) for InlineStorage, a MaybeUninit array of
compile-time length C (src/storage.rs lines 322-332): the capacity is the
constant C. -/
def inlineStorageOps (α : Type) (C : Nat) : StorageOps (SliceStorage α) where
  get_ptr := fun s => (s.base, s)
  get_mut_ptr := fun s => (s.base, s)
  capacity := fun s => (C, s)

/-- State of a mutable reference to an inner storage implementer: the
referent itself. -/
structure MutRef (σ : Type) where
  target : σ

/-- impl Storage R for a mutable reference to S (src/storage.rs lines
269-279): every method dereferences and delegates to the inner S. -/
def mutRefStorageOps {σ : Type} (inner : StorageOps σ) : StorageOps (MutRef σ) where
  get_ptr := fun r =>
    let p := inner.get_ptr r.target
    (p.1, { target := p.2 })
  get_mut_ptr := fun r =>
    let p := inner.get_mut_ptr r.target
    (p.1, { target := p.2 })
  capacity := fun r =>
    let p := inner.capacity r.target
    (p.1, { target := p.2 })

/-- State of a uniquely owned box holding an inner storage implementer. -/
structure Boxed (σ : Type) where
  contents : σ

/-- impl Storage R for Box S, both the arena box (src/storage.rs lines
254-267) and the alloc box (lines 303-313): every method dereferences and
delegates to the boxed S. -/
def boxStorageOps {σ : Type} (inner : StorageOps σ) : StorageOps (Boxed σ) where
  get_ptr := fun b =>
    let p := inner.get_ptr b.contents
    (p.1, { contents := p.2 })
  get_mut_ptr := fun b =>
    let p := inner.get_mut_ptr b.contents
    (p.1, { contents := p.2 })
  capacity := fun b =>
    let p := inner.capacity b.contents
    (p.1, { contents := p.2 })

/-- A storage implementer is stable when none of the three trait methods
changes the storage value (the safety contract of the Storage trait). -/
def StableOps {σ : Type} (ops : StorageOps σ) : Prop :=
  ∀ s, (ops.get_ptr s).2 = s ∧ (ops.get_mut_ptr s).2 = s ∧ (ops.capacity s).2 = s

/-- Two consecutive calls to get_ptr, and two consecutive calls to
capacity, with no mutating call in between, return identical values. -/
def ConsecutiveCallsAgree {σ : Type} (ops : StorageOps σ) : Prop :=
  ∀ s, (ops.get_ptr (ops.get_ptr s).2).1 = (ops.get_ptr s).1 ∧
    (ops.capacity (ops.capacity s).2).1 = (ops.capacity s).1

/-! ## Arena allocator

Modelled from the spec: src/lib.rs declares the module arena (with the
Arena and Box types re-exported at the crate root), but src/arena.rs is
not among the visible sources. The model below follows section 4.4 of the
specification: an arena owns one block of a fixed size, keeps a cursor to
the next free offset, and Allocate(layout) fails with an explicit
out-of-memory value when the aligned cursor plus the requested size
exceeds the block's end, otherwise advances the cursor past the newly
carved region and returns a handle over it. -/

inductive OutOfMemory where
  | mk
deriving DecidableEq, Repr

/-- Modelled from the spec: the arena's block size and bump cursor. -/
structure Arena where
  blockSize : Nat
  cursor : Nat
deriving DecidableEq, Repr

/-- Modelled from the spec: a handle over the carved region, given by its
starting offset within the block and its size. -/
structure Handle where
  offset : Nat
  size : Nat
deriving DecidableEq, Repr

/-- The smallest multiple of align that is not below offset (alignment
padding for bump allocation). -/
def alignUp (offset align : Nat) : Nat :=
  if align = 0 then offset else (offset + align - 1) / align * align

/-- Modelled from the spec: Allocate(layout) on a bump arena. -/
def Arena.allocate (a : Arena) (l : Layout) : Except OutOfMemory Handle × Arena :=
  let start := alignUp a.cursor l.align
  if a.blockSize < start + l.size then
    (Except.error OutOfMemory.mk, a)
  else
    (Except.ok { offset := start, size := l.size }, { a with cursor := start + l.size })

/-! ## Option groups (src/option_group.rs)

OptionGroup8 holds a MaybeUninit compound value together with a u8 flag
byte; bit k of the flags records whether field k is a Some. The embedding
instantiates the compound at a pair (the per-arity tuple implementations
are mechanically identical), keeps each field as its own possibly
uninitialized cell (none models uninitialized memory), and keeps the flag
byte as a Nat (all flag indices used stay below the flag width). -/

structure OptionGroup8Pair (α β : Type) where
  value0 : Option α
  value1 : Option β
  flags : Nat
deriving DecidableEq, Repr

/-- OptionGroup8::empty (src/option_group.rs lines 680-685): uninitialized
value, flags 0. -/
def OptionGroup8Pair.empty {α β : Type} : OptionGroup8Pair α β where
  value0 := none
  value1 := none
  flags := 0

/-- OptionGroup8::set_flag (lines 687-690): flags |= 1 << n. -/
def OptionGroup8Pair.set_flag {α β : Type} (g : OptionGroup8Pair α β) (n : Nat) :
    OptionGroup8Pair α β :=
  { g with flags := g.flags ||| (1 <<< n) }

/-- OptionGroup8::is_empty (lines 692-696): flags == 0. -/
def OptionGroup8Pair.is_empty {α β : Type} (g : OptionGroup8Pair α β) : Bool :=
  g.flags == 0

/-- OptionGroup8::is_some (lines 698-702): flags & (1 << n) != 0. -/
def OptionGroup8Pair.is_some {α β : Type} (g : OptionGroup8Pair α β) (n : Nat) : Bool :=
  not ((g.flags &&& (1 <<< n)) == 0)

/-- OptionGroup8::is_none (lines 704-708): flags & (1 << n) == 0. -/
def OptionGroup8Pair.is_none {α β : Type} (g : OptionGroup8Pair α β) (n : Nat) : Bool :=
  (g.flags &&& (1 <<< n)) == 0

/-- Generated get_0 (impl_field_access_methods, lines 740-748): none when
the flag is clear, otherwise a reference into the field's cell. -/
def OptionGroup8Pair.get_0 {α β : Type} (g : OptionGroup8Pair α β) : Option α :=
  if g.is_none 0 then none else g.value0

/-- Generated get_1, as get_0 but for field 1. -/
def OptionGroup8Pair.get_1 {α β : Type} (g : OptionGroup8Pair α β) : Option β :=
  if g.is_none 1 then none else g.value1

/-- Generated take_0 (lines 760-768): none when the flag is clear,
otherwise a bitwise read of the cell; neither the flags nor the cell are
changed by the source. -/
def OptionGroup8Pair.take_0 {α β : Type} (g : OptionGroup8Pair α β) :
    Option α × OptionGroup8Pair α β :=
  if g.is_none 0 then (none, g) else (g.value0, g)

/-- Generated replace_0 (lines 770-776): the result of take_0 followed by
a raw write of the new value into the cell; the flags are not touched. -/
def OptionGroup8Pair.replace_0 {α β : Type} (g : OptionGroup8Pair α β) (v : α) :
    Option α × OptionGroup8Pair α β :=
  let r := g.take_0
  (r.1, { r.2 with value0 := some v })

/-- The tuple of Options an OptionGroup8 over a pair refines: field k is
a Some exactly when flag bit k is set, holding the cell's contents. -/
def OptionGroup8Pair.abstraction {α β : Type} (g : OptionGroup8Pair α β) :
    Option α × Option β :=
  (if g.is_some 0 then g.value0 else none, if g.is_some 1 then g.value1 else none)

/-! ### Array-backed option groups (impl_array_methods, lines 836-881)

The methods are generated identically for OptionGroup8 and OptionGroup16
over an array of N elements of one type; only the flag width differs, and
every flag index used stays below it. The embedding keeps the cells as a
list of length N and takes N as an explicit argument. -/

structure OptionGroupArray (α : Type) where
  cells : List (Option α)
  flags : Nat
deriving DecidableEq, Repr

/-- empty for the array group: N uninitialized cells, flags 0. -/
def OptionGroupArray.empty (α : Type) (N : Nat) : OptionGroupArray α where
  cells := List.replicate N none
  flags := 0

/-- is_some for the array group: flags & (1 << n) != 0. -/
def OptionGroupArray.is_some {α : Type} (g : OptionGroupArray α) (n : Nat) : Bool :=
  not ((g.flags &&& (1 <<< n)) == 0)

/-- set_flag for the array group: flags |= 1 << n. -/
def OptionGroupArray.set_flag {α : Type} (g : OptionGroupArray α) (n : Nat) :
    OptionGroupArray α :=
  { g with flags := g.flags ||| (1 <<< n) }

/-- Generated get (lines 850-862): panics when idx is at least N, returns
none when the flag bit is clear, and otherwise reads the cell. -/
def OptionGroupArray.get {α : Type} (N : Nat) (g : OptionGroupArray α) (idx : Nat) :
    Except String (Option α) :=
  if N ≤ idx then
    Except.error "Index out of bounds!"
  else if (g.flags &&& (1 <<< idx)) == 0 then
    Except.ok none
  else
    Except.ok (g.cells.getD idx none)

/-- Generated set (lines 864-875): when the flag bit is already set, drop
the old value in place and run set_flag (a redundant store of an already
set bit); then write the new value into the cell. The source never sets
the flag bit when it was clear. -/
def OptionGroupArray.set {α : Type} (g : OptionGroupArray α) (idx : Nat) (v : α) :
    OptionGroupArray α :=
  let g1 := if g.is_some idx then g.set_flag idx else g
  { g1 with cells := g1.cells.set idx (some v) }

/-- Generated new (lines 839-848): start from empty and run set for every
Some entry of the input array, in index order. -/
def OptionGroupArray.new (α : Type) (N : Nat) (values : List (Option α)) :
    OptionGroupArray α :=
  values.enum.foldl
    (fun g p =>
      match p.2 with
      | some v => g.set p.1 v
      | none => g)
    (OptionGroupArray.empty α N)

/-! ### OptionGroup16 (src/option_group.rs lines 887-941) -/

structure OptionGroup16Pair (α β : Type) where
  value0 : Option α
  value1 : Option β
  flags : Nat
deriving DecidableEq, Repr

/-- OptionGroup16::empty (lines 896-902): uninitialized value, flags 0. -/
def OptionGroup16Pair.empty {α β : Type} : OptionGroup16Pair α β where
  value0 := none
  value1 := none
  flags := 0

/-- OptionGroup16::is_empty (lines 909-912): flags == 0. -/
def OptionGroup16Pair.is_empty {α β : Type} (g : OptionGroup16Pair α β) : Bool :=
  g.flags == 0

/-- Drop for OptionGroup16 (src/option_group.rs lines 934-941): the body
is the todo macro, an unconditional panic with the message below,
whatever the value being dropped. -/
def OptionGroup16Pair.drop_glue {α β : Type} (_g : OptionGroup16Pair α β) :
    Except String Unit :=
  Except.error "not yet implemented"

/-! ## Theorems -/

/-- Claim C1 fails as stated: with debug assertions disabled (an optimized
build), from_usize on u8 applied to 256, which exceeds
MAX_REPRESENTABLE = 255, does not panic; it silently truncates to 0. -/
theorem c1_from_usize_release_truncates :
    (capImpl CapKind.u8).maxRepresentable < 256 ∧
    (capImpl CapKind.u8).from_usize false 256 = Except.ok 0 :=
  ⟨by decide, rfl⟩

/-- Claim C1 (amended): for every Capacity implementation provided by the
crate and every usize i strictly greater than MAX_REPRESENTABLE, calling
from_usize(i) panics when debug assertions are enabled, and silently
truncates into range when they are disabled; buffer_too_large_for_index_type
panics unconditionally with a message naming the offending index type. -/
theorem c1_panic_policy_amended (k : CapKind) (i : Nat) (hi : i ≤ usizeMax)
    (hgt : (capImpl k).maxRepresentable < i) :
    (capImpl k).from_usize true i = Except.error "assertion failed" ∧
    (∃ j, (capImpl k).from_usize false i = Except.ok j ∧
      j ≤ (capImpl k).maxRepresentable) ∧
    (∀ name, buffer_too_large_for_index_type name =
      Except.error ("provided storage block cannot be fully indexed by type " ++ name)) := by
  have hbuf : ∀ name, buffer_too_large_for_index_type name =
      Except.error ("provided storage block cannot be fully indexed by type " ++ name) :=
    fun _ => rfl
  cases k
  case u8 =>
    simp only [capImpl, capacityU8] at hgt ⊢
    have hd : ¬ (i ≤ 0xFF) := by omega
    refine ⟨?_, ⟨i % 2 ^ 8, ?_, ?_⟩, hbuf⟩
    · simp [CapacityImpl.from_usize, hd]
    · simp [CapacityImpl.from_usize]
    · omega
  case u16 =>
    simp only [capImpl, capacityU16] at hgt ⊢
    have hd : ¬ (i ≤ 0xFFFF) := by omega
    refine ⟨?_, ⟨i % 2 ^ 16, ?_, ?_⟩, hbuf⟩
    · simp [CapacityImpl.from_usize, hd]
    · simp [CapacityImpl.from_usize]
    · omega
  case u32 =>
    simp only [capImpl, capacityU32] at hgt ⊢
    have hd : ¬ (i ≤ 0xFFFFFFFF) := by omega
    refine ⟨?_, ⟨i % 2 ^ 32, ?_, ?_⟩, hbuf⟩
    · simp [CapacityImpl.from_usize, hd]
    · simp [CapacityImpl.from_usize]
    · omega
  case u64 =>
    exfalso
    simp only [capImpl, capacityU64, usizeMax] at hgt
    simp only [usizeMax] at hi
    omega
  case usize =>
    exfalso
    simp only [capImpl, capacityUsize, usizeMax] at hgt
    simp only [usizeMax] at hi
    omega

/-- Witness for the amended C1 at the u8 implementation and i = 256. -/
theorem c1_panic_policy_witness :
    (capImpl CapKind.u8).from_usize true 256 = Except.error "assertion failed" :=
  (c1_panic_policy_amended CapKind.u8 256 (by decide) (by decide)).1

/-- Claim C2: for every Capacity implementation provided by the crate and
every i with 0 <= i <= MAX_REPRESENTABLE, as_usize(from_usize(i)) = i,
with no panic in either build mode. -/
theorem c2_capacity_roundtrip (k : CapKind) (dbg : Bool) (i : Nat)
    (h : i ≤ (capImpl k).maxRepresentable) :
    ∃ v, (capImpl k).from_usize dbg i = Except.ok v ∧
      (capImpl k).as_usize dbg v = Except.ok i := by
  cases k
  case u8 =>
    simp only [capImpl, capacityU8] at h ⊢
    refine ⟨i, ?_, ?_⟩
    · simp [CapacityImpl.from_usize, h]
      omega
    · simp [CapacityImpl.as_usize]
  case u16 =>
    simp only [capImpl, capacityU16] at h ⊢
    refine ⟨i, ?_, ?_⟩
    · simp [CapacityImpl.from_usize, h]
      omega
    · simp [CapacityImpl.as_usize]
  case u32 =>
    simp only [capImpl, capacityU32] at h ⊢
    have hu : i ≤ usizeMax := by
      simp only [usizeMax]
      omega
    refine ⟨i, ?_, ?_⟩
    · simp [CapacityImpl.from_usize, h]
      omega
    · simp [CapacityImpl.as_usize, hu]
  case u64 =>
    simp only [capImpl, capacityU64] at h ⊢
    have hle : i ≤ usizeMax := h
    have hlt : i < 2 ^ 64 := by
      simp only [usizeMax] at hle
      omega
    refine ⟨i, ?_, ?_⟩ <;>
      simp [CapacityImpl.from_usize, CapacityImpl.as_usize, hle, Nat.mod_eq_of_lt hlt] <;>
      omega
  case usize =>
    simp only [capImpl, capacityUsize] at h ⊢
    exact ⟨i, by simp [CapacityImpl.from_usize], by simp [CapacityImpl.as_usize]⟩

/-- Witness for C2 at the u8 implementation, debug assertions on, i = 200. -/
theorem c2_capacity_roundtrip_witness :
    ∃ v, (capImpl CapKind.u8).from_usize true 200 = Except.ok v ∧
      (capImpl CapKind.u8).as_usize true v = Except.ok 200 :=
  c2_capacity_roundtrip CapKind.u8 true 200 (by decide)

/-- Claim C3 fails as stated: for an element type of size 1 and alignment
1, a count of 2 ^ 63 gives a total size representable in usize, yet
layout_with_capacity reports an error, because the platform check bounds
the size by isize::MAX, not usize::MAX. -/
theorem c3_layout_usize_counterexample :
    (⟨1, 1⟩ : RustType).size * 2 ^ 63 ≤ usizeMax ∧
    ArrayLike.layout_with_capacity ⟨1, 1⟩ (2 ^ 63) = Except.error LayoutError.mk :=
  ⟨by decide, rfl⟩

/-- Claim C3 (amended): layout_with_capacity for ArrayLike of T is pure and
total: it returns Ok of the layout with size n * size_of T and alignment
align_of T exactly when n * size_of T is at most isize::MAX - (align - 1)
(the platform's checked layout bound), and returns an error value, with no
panic and no wrap-around, whenever that bound is exceeded. -/
theorem c3_layout_array_amended (T : RustType) (n : Nat) :
    (ArrayLike.layout_with_capacity T n =
        Except.ok { size := T.size * n, align := T.align } ↔
      T.size * n ≤ isizeMax - (T.align - 1)) ∧
    (isizeMax - (T.align - 1) < T.size * n →
      ArrayLike.layout_with_capacity T n = Except.error LayoutError.mk) := by
  have key : ∀ b k m : Nat, (k ≠ 0 ∧ b / k < m) ↔ b < k * m := by
    intro b k m
    constructor
    · rintro ⟨hk, hlt⟩
      have hpos : 0 < k := Nat.pos_of_ne_zero hk
      have h2 : ¬ (m ≤ b / k) := Nat.not_le.mpr hlt
      rw [Nat.le_div_iff_mul_le hpos] at h2
      have h3 : b < m * k := Nat.not_le.mp h2
      rw [Nat.mul_comm] at h3
      exact h3
    · intro hlt
      have hk : k ≠ 0 := by
        rintro rfl
        simp at hlt
      have hpos : 0 < k := Nat.pos_of_ne_zero hk
      refine ⟨hk, ?_⟩
      have h2 : ¬ (m * k ≤ b) := by
        rw [Nat.mul_comm]
        exact Nat.not_le.mpr hlt
      rw [← Nat.le_div_iff_mul_le hpos] at h2
      exact Nat.not_le.mp h2
  constructor
  · by_cases hc : T.size ≠ 0 ∧ (isizeMax - (T.align - 1)) / T.size < n
    · rw [ArrayLike.layout_with_capacity, Layout.array, if_pos hc]
      constructor
      · intro h
        exact Except.noConfusion h
      · intro h
        exact absurd ((key _ _ _).mp hc) (Nat.not_lt.mpr h)
    · rw [ArrayLike.layout_with_capacity, Layout.array, if_neg hc]
      constructor
      · intro _
        exact Nat.not_lt.mp (mt (key (isizeMax - (T.align - 1)) T.size n).mpr hc)
      · intro _
        rfl
  · intro h
    have hc := (key (isizeMax - (T.align - 1)) T.size n).mpr h
    rw [ArrayLike.layout_with_capacity, Layout.array, if_pos hc]

/-- Witness for the amended C3: 10 elements of size 4 and alignment 4 give
the layout with size 40 and alignment 4. -/
theorem c3_layout_array_witness :
    ArrayLike.layout_with_capacity ⟨4, 4⟩ 10 = Except.ok { size := 40, align := 4 } :=
  (c3_layout_array_amended ⟨4, 4⟩ 10).1.mpr (by decide)

/-- The borrowed-slice backend never changes the storage value. -/
theorem stableOps_slice (α : Type) : StableOps (sliceStorageOps α) :=
  fun _ => ⟨rfl, rfl, rfl⟩

/-- Claim C4: the borrowed-slice, heap and inline backends are
deterministic in the storage value, and the mutable-reference and boxed
wrappers are whenever the wrapped implementer honours the stability
contract: two consecutive calls to get_ptr, and two consecutive calls to
capacity, with no mutating call in between, return identical values. -/
theorem c4_storage_stability (α σ : Type) (C : Nat) (inner : StorageOps σ)
    (hinner : StableOps inner) :
    ConsecutiveCallsAgree (sliceStorageOps α) ∧
    ConsecutiveCallsAgree (heapStorageOps α) ∧
    ConsecutiveCallsAgree (inlineStorageOps α C) ∧
    ConsecutiveCallsAgree (mutRefStorageOps inner) ∧
    ConsecutiveCallsAgree (boxStorageOps inner) := by
  refine ⟨fun _ => ⟨rfl, rfl⟩, fun _ => ⟨rfl, rfl⟩, fun _ => ⟨rfl, rfl⟩, ?_, ?_⟩
  · intro r
    constructor
    · show (inner.get_ptr (inner.get_ptr r.target).2).1 = (inner.get_ptr r.target).1
      rw [(hinner r.target).1]
    · show (inner.capacity (inner.capacity r.target).2).1 = (inner.capacity r.target).1
      rw [(hinner r.target).2.2]
  · intro b
    constructor
    · show (inner.get_ptr (inner.get_ptr b.contents).2).1 = (inner.get_ptr b.contents).1
      rw [(hinner b.contents).1]
    · show (inner.capacity (inner.capacity b.contents).2).1 = (inner.capacity b.contents).1
      rw [(hinner b.contents).2.2]

/-- Witness for C4: the mutable-reference wrapper over a concrete
borrowed slice returns the same pointer on two consecutive calls. -/
theorem c4_storage_stability_witness :
    ((mutRefStorageOps (sliceStorageOps Nat)).get_ptr
        ((mutRefStorageOps (sliceStorageOps Nat)).get_ptr ⟨⟨64, [none]⟩⟩).2).1 =
      ((mutRefStorageOps (sliceStorageOps Nat)).get_ptr ⟨⟨64, [none]⟩⟩).1 :=
  ((c4_storage_stability Nat (SliceStorage Nat) 0 (sliceStorageOps Nat)
      (stableOps_slice Nat)).2.2.2.1 ⟨⟨64, [none]⟩⟩).1

/-- Claim C5: on a borrowed slice of length n, capacity returns exactly n,
get_ptr and get_mut_ptr return the slice's base address, and the capacity
never exceeds the element count n of a block laid out by
layout_with_capacity n (its size covers capacity-many elements). -/
theorem c5_slice_backend (α : Type) (s : SliceStorage α) (n : Nat)
    (hn : s.cells.length = n) (T : RustType) (L : Layout)
    (hL : ArrayLike.layout_with_capacity T n = Except.ok L) :
    ((sliceStorageOps α).capacity s).1 = n ∧
    ((sliceStorageOps α).get_ptr s).1 = s.base ∧
    ((sliceStorageOps α).get_mut_ptr s).1 = s.base ∧
    ((sliceStorageOps α).capacity s).1 ≤ n ∧
    T.size * ((sliceStorageOps α).capacity s).1 ≤ L.size := by
  have hsize : L.size = T.size * n := by
    unfold ArrayLike.layout_with_capacity Layout.array at hL
    split at hL
    · exact Except.noConfusion hL
    · injection hL with h
      rw [← h]
  refine ⟨hn, rfl, rfl, Nat.le_of_eq hn, ?_⟩
  show T.size * s.cells.length ≤ L.size
  rw [hsize, hn]

/-- Witness for C5 at a two-element slice of a type of size 4. -/
theorem c5_slice_backend_witness :
    ((sliceStorageOps Nat).capacity ⟨0, [none, none]⟩).1 = 2 ∧
    ((sliceStorageOps Nat).get_ptr ⟨0, [none, none]⟩).1 =
      (⟨0, [none, none]⟩ : SliceStorage Nat).base ∧
    ((sliceStorageOps Nat).get_mut_ptr ⟨0, [none, none]⟩).1 =
      (⟨0, [none, none]⟩ : SliceStorage Nat).base ∧
    ((sliceStorageOps Nat).capacity ⟨0, [none, none]⟩).1 ≤ 2 ∧
    (⟨4, 4⟩ : RustType).size * ((sliceStorageOps Nat).capacity ⟨0, [none, none]⟩).1 ≤
      (⟨8, 4⟩ : Layout).size :=
  c5_slice_backend Nat ⟨0, [none, none]⟩ 2 rfl ⟨4, 4⟩ ⟨8, 4⟩ rfl

/-- Claim C6: the mutable-reference wrapper and the boxed wrappers return
exactly the wrapped implementer's values for get_ptr, get_mut_ptr and
capacity. -/
theorem c6_wrapper_delegation (σ : Type) (inner : StorageOps σ) (s : σ) :
    ((mutRefStorageOps inner).get_ptr ⟨s⟩).1 = (inner.get_ptr s).1 ∧
    ((mutRefStorageOps inner).get_mut_ptr ⟨s⟩).1 = (inner.get_mut_ptr s).1 ∧
    ((mutRefStorageOps inner).capacity ⟨s⟩).1 = (inner.capacity s).1 ∧
    ((boxStorageOps inner).get_ptr ⟨s⟩).1 = (inner.get_ptr s).1 ∧
    ((boxStorageOps inner).get_mut_ptr ⟨s⟩).1 = (inner.get_mut_ptr s).1 ∧
    ((boxStorageOps inner).capacity ⟨s⟩).1 = (inner.capacity s).1 :=
  ⟨rfl, rfl, rfl, rfl, rfl, rfl⟩

/-- Bump allocation never moves the cursor backwards at the padding step. -/
theorem le_alignUp (offset align : Nat) (h : 0 < align) :
    offset ≤ alignUp offset align := by
  unfold alignUp
  rw [if_neg (Nat.pos_iff_ne_zero.mp h)]
  have h1 : align * ((offset + align - 1) / align) + (offset + align - 1) % align =
      offset + align - 1 := Nat.div_add_mod _ _
  have h2 : (offset + align - 1) % align < align := Nat.mod_lt _ h
  rw [Nat.mul_comm] at h1
  generalize (offset + align - 1) / align * align = X at h1 ⊢
  omega

/-- Claim C7 (arena modelled from the spec): when the aligned cursor plus
the requested size exceeds the block's end, allocate returns an explicit
out-of-memory value and leaves the arena unchanged (so it remains usable
for smaller requests); on success it returns a handle over a fresh region
starting at or after the old cursor, and advances the cursor exactly past
that region, within the block. -/
theorem c7_arena_allocate (a : Arena) (l : Layout) (ha : 0 < l.align) :
    (a.blockSize < alignUp a.cursor l.align + l.size →
      (a.allocate l).1 = Except.error OutOfMemory.mk ∧ (a.allocate l).2 = a) ∧
    (alignUp a.cursor l.align + l.size ≤ a.blockSize →
      ∃ h : Handle,
        (a.allocate l).1 = Except.ok h ∧
        a.cursor ≤ h.offset ∧
        h.size = l.size ∧
        (a.allocate l).2.cursor = h.offset + l.size ∧
        (a.allocate l).2.blockSize = a.blockSize ∧
        h.offset + h.size ≤ a.blockSize) := by
  constructor
  · intro hover
    simp only [Arena.allocate]
    rw [if_pos hover]
    exact ⟨rfl, rfl⟩
  · intro hfit
    refine ⟨{ offset := alignUp a.cursor l.align, size := l.size }, ?_, ?_, rfl, ?_, ?_, hfit⟩
    · simp only [Arena.allocate]
      rw [if_neg (Nat.not_lt.mpr hfit)]
    · exact le_alignUp a.cursor l.align ha
    · simp only [Arena.allocate]
      rw [if_neg (Nat.not_lt.mpr hfit)]
    · simp only [Arena.allocate]
      rw [if_neg (Nat.not_lt.mpr hfit)]

/-- Witness for C7: a 16-byte arena serves an 8-byte, 8-aligned request
from offset 0 and ends with the cursor at 8. -/
theorem c7_arena_allocate_witness :
    ∃ h : Handle,
      ((⟨16, 0⟩ : Arena).allocate ⟨8, 8⟩).1 = Except.ok h ∧
      (⟨16, 0⟩ : Arena).cursor ≤ h.offset ∧
      h.size = (⟨8, 8⟩ : Layout).size ∧
      ((⟨16, 0⟩ : Arena).allocate ⟨8, 8⟩).2.cursor = h.offset + (⟨8, 8⟩ : Layout).size ∧
      ((⟨16, 0⟩ : Arena).allocate ⟨8, 8⟩).2.blockSize = (⟨16, 0⟩ : Arena).blockSize ∧
      h.offset + h.size ≤ (⟨16, 0⟩ : Arena).blockSize :=
  (c7_arena_allocate ⟨16, 0⟩ ⟨8, 8⟩ (by decide)).2 (by decide)

/-- Claim C8: the generated field accessors do not refine a tuple of
Options. empty is all-None as claimed, but replace_0 on an empty group
returns None and leaves the slot still reading as None (the flag bit is
never set by replace), and take_0 on an occupied slot returns the value
without clearing the flag, so a second take_0 returns it again instead of
None. Evaluated here at OptionGroup8 over a pair of Nat fields. -/
theorem c8_field_access_divergence :
    (OptionGroup8Pair.empty : OptionGroup8Pair Nat Nat).is_empty = true ∧
    ((OptionGroup8Pair.empty : OptionGroup8Pair Nat Nat).replace_0 7).1 = none ∧
    ((OptionGroup8Pair.empty : OptionGroup8Pair Nat Nat).replace_0 7).2.get_0 = none ∧
    ((OptionGroup8Pair.empty : OptionGroup8Pair Nat Nat).replace_0 7).2.is_some 0 = false ∧
    ((OptionGroup8Pair.empty : OptionGroup8Pair Nat Nat).replace_0 7).2.abstraction =
      (none, none) ∧
    ((⟨some 5, none, 1⟩ : OptionGroup8Pair Nat Nat).take_0).1 = some 5 ∧
    ((⟨some 5, none, 1⟩ : OptionGroup8Pair Nat Nat).take_0).2.is_some 0 = true ∧
    (((⟨some 5, none, 1⟩ : OptionGroup8Pair Nat Nat).take_0).2.take_0).1 = some 5 :=
  ⟨rfl, rfl, rfl, rfl, rfl, rfl, rfl, rfl⟩

/-- Claim C9: the array accessors diverge from the claim. get with an
index at or past N panics as claimed, but set on a previously empty slot
never sets the flag bit (set_flag only runs when the bit was already
set), so get afterwards returns None instead of the stored value, and new
built from an array with Some entries likewise reads back all-None. -/
theorem c9_array_set_divergence :
    ((OptionGroupArray.empty Nat 4).set 0 42).flags = 0 ∧
    OptionGroupArray.get 4 ((OptionGroupArray.empty Nat 4).set 0 42) 0 = Except.ok none ∧
    OptionGroupArray.get 4 (OptionGroupArray.new Nat 4 [some 1, none, some 3, none]) 0 =
      Except.ok none ∧
    OptionGroupArray.get 4 (OptionGroupArray.new Nat 4 [some 1, none, some 3, none]) 2 =
      Except.ok none ∧
    OptionGroupArray.get 4 (OptionGroupArray.empty Nat 4) 7 =
      Except.error "Index out of bounds!" :=
  ⟨rfl, rfl, rfl, rfl, rfl⟩

/-- Claim C10: dropping an OptionGroup16 always panics, because the Drop
implementation's body is the todo macro; in particular letting an empty
(all-None) group go out of scope is not a safe no-op. -/
theorem c10_drop16_divergence :
    (OptionGroup16Pair.empty : OptionGroup16Pair Nat Nat).is_empty = true ∧
    (OptionGroup16Pair.empty : OptionGroup16Pair Nat Nat).drop_glue =
      Except.error "not yet implemented" :=
  ⟨rfl, rfl⟩

end Coca
